import Mathlib

/-!
Shallow embedding of the pure logic of the flux_kontext_pro repository:
the ComfyUI client node (src/custom_nodes/FluxKontextCreator/flux_kontext_creator.py),
its experimental variant (flux_kontext_creator_exp.py) and the serverless
workflow builder (src/handler.py).  Network effects are modelled as explicit
environments (functions from attempt number or URL to responses), floats as
rationals, and PIL images as width/height plus a pixel function.
-/

/-- A decoded image tensor: height, width, channel count and a sample
function (rational samples; ComfyUI tensors carry floats in [0,1]).
Samples are meaningful for indices below the bounds. -/
structure Img where
  h : Nat
  w : Nat
  c : Nat
  px : Nat → Nat → Nat → Rat

/-- Extensional equality of image buffers: equal dimensions and equal
samples within bounds. -/
def Img.eqv (a b : Img) : Prop :=
  a.h = b.h ∧ a.w = b.w ∧ a.c = b.c ∧
  ∀ i j k, i < a.h → j < a.w → k < a.c → a.px i j k = b.px i j k

/-- A tensor as passed between ComfyUI nodes: either a plain [H, W, C]
array or one with a leading batch dimension of size 1. -/
inductive CTensor
  | t3 (img : Img)
  | t4 (img : Img)

/-- Channel-compositing core of FluxKontextCreatorExperimental._flatten_image
(flux_kontext_creator_exp.py lines 130-145): a 4-channel buffer is
composited over an opaque white background (white sample = 1.0) as
rgb * alpha + white * (1 - alpha); any other buffer is returned unchanged. -/
def flatten_core (img : Img) : Img :=
  if img.c = 4 then
    { h := img.h, w := img.w, c := 3,
      px := fun i j k => img.px i j k * img.px i j 3 + 1 * (1 - img.px i j 3) }
  else img

/-- FluxKontextCreatorExperimental._flatten_image (lines 122-145): squeeze
a size-1 batch dimension, flatten the channels, and return the result with
a leading batch dimension restored (added when absent). -/
def flatten_image : CTensor → CTensor
  | CTensor.t3 img => CTensor.t4 (flatten_core img)
  | CTensor.t4 img => CTensor.t4 (flatten_core img)

/-- Extend a 3-channel buffer with a constant alpha channel (used to state
the spec's round-trip property flatten(addAlpha(img, 1)) = img). -/
def addAlpha (img : Img) (a : Rat) : Img :=
  { h := img.h, w := img.w, c := 4,
    px := fun i j k => if k = 3 then a else img.px i j k }

/-- A JSON payload value sent to the remote API.  The nullv constructor
exists so that "the seed key is absent rather than null" is expressible. -/
inductive PVal
  | s (v : String)
  | i (v : Int)
  | nullv
deriving DecidableEq

/-- Request payload built by FluxKontextCreator.edit_image
(flux_kontext_creator.py lines 172-183): five fixed keys, then the seed
key appended only when seed >= 0. -/
def build_payload (prompt input_image aspect : String) (safety_tolerance : Int)
    (output_format : String) (seed : Int) : List (String × PVal) :=
  let payload := [("prompt", PVal.s prompt), ("input_image", PVal.s input_image),
    ("aspect_ratio", PVal.s aspect), ("safety_tolerance", PVal.i safety_tolerance),
    ("output_format", PVal.s output_format)]
  if 0 ≤ seed then payload ++ [("seed", PVal.i seed)] else payload

/-- Request payload built by FluxKontextCreatorExperimental._flux_kontext_process
(flux_kontext_creator_exp.py lines 322-333); textually identical to the
payload construction of edit_image. -/
def build_payload_exp (prompt input_image aspect : String) (safety_tolerance : Int)
    (output_format : String) (seed : Int) : List (String × PVal) :=
  let payload := [("prompt", PVal.s prompt), ("input_image", PVal.s input_image),
    ("aspect_ratio", PVal.s aspect), ("safety_tolerance", PVal.i safety_tolerance),
    ("output_format", PVal.s output_format)]
  if 0 ≤ seed then payload ++ [("seed", PVal.i seed)] else payload

/-- Greatest sample value of a nonempty flattened buffer (img_array.max()). -/
def listMax (v : Rat) (l : List Rat) : Rat := l.foldl max v

/-- NumPy astype(np.uint8) on one sample: truncate to an integer and wrap
to 8 bits (for the nonnegative samples arising here truncation is floor). -/
def np_uint8 (q : Rat) : Nat := (Int.floor q).toNat % 256

/-- Value-range conversion step of FluxKontextCreator.tensor_to_pil
(flux_kontext_creator.py lines 316-322), applied to the flattened samples
of the array: multiply by 255 exactly when the maximum sample is <= 1.0,
then cast to uint8.  The empty case is unreachable for real images
(numpy's max() raises there). -/
def tensor_to_pil_scale : List Rat → List Nat
  | [] => []
  | v :: rest =>
    if listMax v rest ≤ 1 then (v :: rest).map (fun x => np_uint8 (x * 255))
    else (v :: rest).map np_uint8

/-- Concrete 1-by-1 three-channel buffer used by witnesses. -/
def imgHalf : Img :=
  { h := 1, w := 1, c := 3, px := fun _ _ _ => (1 : Rat) / 2 }

/-- Concrete 1-by-1 four-channel buffer used by witnesses. -/
def imgQuarterA : Img :=
  { h := 1, w := 1, c := 4, px := fun _ _ _ => (1 : Rat) / 4 }

/-- One status-poll response as seen by wait_for_result: an HTTP failure
(status code different from 200), a JSON body carrying a status string and
an optional result.sample URL, or an exception raised during the attempt
(swallowed by the per-attempt handler, which continues polling). -/
inductive PollResponse
  | httpFail (code : Nat)
  | ok (status : String) (sample : Option String)
  | exn

/-- Result of fetching the sample URL: the downloaded and decoded image,
an HTTP failure, or an exception while downloading or decoding. -/
inductive DownloadResult
  | ok (img : Img)
  | httpFail (code : Nat)
  | exn

/-- Exit classification of the polling loop, one constructor per return
point of wait_for_result. -/
inductive WaitOutcome
  | got (img : Img)
  | noSample
  | downloadFailed
  | taskError
  | timedOut

/-- Observable trace of one run of the polling loop: its outcome, how many
status polls were issued, and the total time slept. -/
structure WaitRun where
  outcome : WaitOutcome
  polls : Nat
  slept : Nat

/-- Progressive wait before attempt k (1-indexed):
wait_time = min(2 + attempt, 15), flux_kontext_creator.py line 382. -/
def wait_time (attempt : Nat) : Nat := min (2 + attempt) 15

/-- Total sleep over the m consecutive attempts k, k+1, ..., k+m-1. -/
def sleepSum (k : Nat) : Nat → Nat
  | 0 => 0
  | m + 1 => wait_time k + sleepSum (k + 1) m

/-- Body of one polling attempt of wait_for_result (flux_kontext_creator.py
lines 380-440), as a function of the poll response: a non-200 status check,
an unknown status, a Pending status or a swallowed exception continue with
the next attempt (cont); Ready downloads the sample URL (no sample URL, or
a non-200 download, abort with no image; a download exception is swallowed
and continues); Error aborts with no image. -/
def attemptStep (wt : Nat) (cont : WaitRun) (dl : String → DownloadResult) :
    PollResponse → WaitRun
  | PollResponse.httpFail _ => cont
  | PollResponse.exn => cont
  | PollResponse.ok status sample =>
    if status = "Ready" then
      match sample with
      | none => { outcome := WaitOutcome.noSample, polls := 1, slept := wt }
      | some url =>
        match dl url with
        | DownloadResult.ok img =>
          { outcome := WaitOutcome.got img, polls := 1, slept := wt }
        | DownloadResult.httpFail _ =>
          { outcome := WaitOutcome.downloadFailed, polls := 1, slept := wt }
        | DownloadResult.exn => cont
    else if status = "Pending" then cont
    else if status = "Error" then
      { outcome := WaitOutcome.taskError, polls := 1, slept := wt }
    else cont

/-- The polling loop of FluxKontextCreator.wait_for_result from attempt k
with the given number of attempts remaining.  env maps an attempt number to
its status-poll response; dl maps a sample URL to its download result.
Every executed attempt sleeps wait_time k and then issues exactly one poll;
exhausting the attempts yields the timed-out outcome. -/
def waitFrom (env : Nat → PollResponse) (dl : String → DownloadResult) :
    Nat → Nat → WaitRun
  | _, 0 => { outcome := WaitOutcome.timedOut, polls := 0, slept := 0 }
  | k, fuel + 1 =>
    let r := waitFrom env dl (k + 1) fuel
    attemptStep (wait_time k)
      { outcome := r.outcome, polls := r.polls + 1, slept := r.slept + wait_time k }
      dl (env k)

/-- FluxKontextCreator.wait_for_result (flux_kontext_creator.py lines
364-443): poll up to max_attempts times starting at attempt 1.  The
equally-named loop of the experimental node (_wait_for_result, lines
386-441) has the identical structure. -/
def wait_for_result (env : Nat → PollResponse) (dl : String → DownloadResult)
    (max_attempts : Nat) : WaitRun :=
  waitFrom env dl 1 max_attempts

/-- Worst-case total sleep of a full 20-attempt run. -/
def totalWorstCaseSleep : Nat := sleepSum 1 20

/-- Environment in which every status poll answers Pending. -/
def constPending : Nat → PollResponse := fun _ => PollResponse.ok "Pending" none

/-- Environment for witnesses: 19 Pending answers followed by Ready with a
sample URL. -/
def pendingThenReady : Nat → PollResponse := fun k =>
  if k ≤ 19 then PollResponse.ok "Pending" none
  else PollResponse.ok "Ready" (some "https://example/sample.png")

/-- Download environment that always succeeds with a fixed decoded image. -/
def dlAlwaysHalf : String → DownloadResult := fun _ => DownloadResult.ok imgHalf

/-- Download environment that always fails with an exception. -/
def dlExn : String → DownloadResult := fun _ => DownloadResult.exn

/-- A workflow node input value (handler.py build_workflow): a string, an
integer, a float, a boolean, or a two-element [source-node-id, output-index]
reference to another node. -/
inductive JVal
  | s (v : String)
  | i (v : Int)
  | q (v : Rat)
  | b (v : Bool)
  | ref (node : String) (out : Nat)

/-- A workflow node: its class_type and its named inputs. -/
structure WNode where
  class_type : String
  inputs : List (String × JVal)

/-- The common inputs of an ImageStitch node (handler.py lines 73-101). -/
def stitchInputs (img1 img2 : String) : List (String × JVal) :=
  [("image1", JVal.ref img1 0), ("image2", JVal.ref img2 0),
   ("direction", JVal.s "right"), ("match_image_size", JVal.b true),
   ("spacing_width", JVal.i 0), ("spacing_color", JVal.s "white")]

/-- The LoadImage nodes of build_workflow (handler.py lines 59-66): node
ids "10", "11", ... for images image_1.png, image_2.png, ... -/
def loadNodes (n : Nat) : List (String × WNode) :=
  (List.range n).map (fun i =>
    (toString (10 + i),
     { class_type := "LoadImage",
       inputs := [("image", JVal.s ("image_" ++ toString (i + 1) ++ ".png"))] }))

/-- The chain of ImageStitch nodes of build_workflow (handler.py lines
69-102): none for fewer than two images; otherwise node "20" stitching
loads 0 and 1, then for each further image i the node str(20+i-1)
stitching the previous stitch with load i. -/
def stitchNodes (n : Nat) : List (String × WNode) :=
  if n < 2 then []
  else
    ("20", { class_type := "ImageStitch",
             inputs := stitchInputs (toString 10) (toString 11) }) ::
    (List.range (n - 2)).map (fun j =>
      (toString (20 + (j + 2) - 1),
       { class_type := "ImageStitch",
         inputs := stitchInputs (toString (20 + (j + 2) - 2))
           (toString (10 + (j + 2))) }))

/-- The FluxKontextProImageNode of build_workflow (handler.py lines
108-121), taking its input image from the given node. -/
def bflNode (inputRef : String) : WNode :=
  { class_type := "FluxKontextProImageNode",
    inputs := [("prompt", JVal.s "Default prompt"),
               ("prompt_upsampling", JVal.b false),
               ("guidance", JVal.q 3),
               ("aspect_ratio", JVal.s "16:9"),
               ("steps", JVal.i 50),
               ("seed", JVal.i 1234),
               ("input_image", JVal.ref inputRef 0)] }

/-- handler.py build_workflow (lines 51-142): LoadImage nodes, the
ImageStitch chain, node "30" (the edit node, fed from load "10" when there
is a single image and from the last stitch node otherwise) and node "31"
(SaveImage reading node "30"), in insertion order. -/
def build_workflow (n : Nat) : List (String × WNode) :=
  loadNodes n ++ stitchNodes n ++
  [("30", bflNode (if n = 1 then "10" else toString (20 + n - 2))),
   ("31", { class_type := "SaveImage",
            inputs := [("filename_prefix", JVal.s "Final_Output"),
                       ("images", JVal.ref "30" 0)] })]

/-- Number of nodes of a given class in a workflow. -/
def countClass (wf : List (String × WNode)) (c : String) : Nat :=
  wf.countP (fun p => p.2.class_type == c)

/-- The reference-validity check of handler.py validate_workflow (lines
163-170): every two-element [source-node-id, output-index] input reference
names a node id present in the workflow. -/
def refOk (wf : List (String × WNode)) : Bool :=
  wf.all (fun p => p.2.inputs.all (fun q =>
    match q.2 with
    | JVal.ref src _ => wf.any (fun r => r.1 == src)
    | _ => true))

/-- An opaque white RGB pixel (255, 255, 255). -/
def whitePix : Nat × Nat × Nat := (255, 255, 255)

/-- A PIL-style RGB image: width, height and a pixel function (uint8
triples; pixels are meaningful for coordinates below the bounds). -/
structure PImg where
  width : Nat
  height : Nat
  px : Nat → Nat → Nat × Nat × Nat

/-- Image.new('RGB', (w, h), (255, 255, 255)): an all-white canvas. -/
def whiteImg (w h : Nat) : PImg :=
  { width := w, height := h, px := fun _ _ => whitePix }

/-- canvas.paste(img, (ox, oy)): pixels in the pasted rectangle come from
img, all others from the canvas. -/
def paste (canvas img : PImg) (ox oy : Nat) : PImg :=
  { canvas with
    px := fun x y =>
      if ox ≤ x ∧ x < ox + img.width ∧ oy ≤ y ∧ y < oy + img.height then
        img.px (x - ox) (y - oy)
      else canvas.px x y }

/-- Maximum height among a list of images (max(img.height ...)). -/
def maxHeight (imgs : List PImg) : Nat :=
  (imgs.map (fun t => t.height)).foldr max 0

/-- Paste loop of _side_by_side_combine (flux_kontext_creator_exp.py lines
213-217): paste each image at the running x offset, vertically centered,
then advance the offset by the image width plus the gap. -/
def pasteRow (mh gap : Nat) : List PImg → Nat → PImg → PImg
  | [], _, canvas => canvas
  | t :: rest, xoff, canvas =>
    pasteRow mh gap rest (xoff + t.width + gap)
      (paste canvas t xoff ((mh - t.height) / 2))

/-- FluxKontextCreatorExperimental._side_by_side_combine (lines 206-219):
a white canvas of width sum(widths) + gap*(len-1) and height max(heights),
with each image pasted left to right, vertically centered, gap pixels of
white between adjacent images. -/
def side_by_side_combine (imgs : List PImg) (gap : Nat) : PImg :=
  let tw := (imgs.map (fun t => t.width)).sum + gap * (imgs.length - 1)
  let mh := maxHeight imgs
  pasteRow mh gap imgs 0 (whiteImg tw mh)

/-- Padding step of _grid_combine (lines 238-242): append all-white filler
images of the first image's size until there are 4 entries (the source
crashes on an empty list, so the model takes the nonempty list as
head :: tail). -/
def grid_pad (a : PImg) (rest : List PImg) : List PImg :=
  (a :: rest) ++
    List.replicate (4 - (a :: rest).length) (whiteImg a.width a.height)

/-- The four paste positions of the 2x2 grid (lines 250-253), from the
first image's size and the gap. -/
def grid_positions (w h g : Nat) : List (Nat × Nat) :=
  [(0, 0), (w + g, 0), (0, h + g), (w + g, h + g)]

/-- FluxKontextCreatorExperimental._grid_combine (lines 236-258): pad the
list to 4 images with white filler, keep only the first 4, and paste them
on a white canvas of size (2*w + gap, 2*h + gap) at the four grid
positions, where (w, h) is the first image's size. -/
def grid_combine (a : PImg) (rest : List PImg) (g : Nat) : PImg :=
  let four := (grid_pad a rest).take 4
  let canvas := whiteImg (a.width * 2 + g) (a.height * 2 + g)
  (four.zip (grid_positions a.width a.height g)).foldl
    (fun c pr => paste c pr.1 pr.2.1 pr.2.2) canvas

/-- Concrete 2-by-1 PIL-style image used by witnesses. -/
def pimgA : PImg :=
  { width := 2, height := 1, px := fun _ _ => (10, 20, 30) }

/-- Concrete 3-by-2 PIL-style image used by witnesses. -/
def pimgB : PImg :=
  { width := 3, height := 2, px := fun _ _ => (40, 50, 60) }

/-- Outcome of the submission POST of edit_image: a timeout, a connection
error, any other exception (all three caught by the except clauses of
edit_image, lines 274-297), or an HTTP response with its status code and,
for JSON bodies, the optional "id" field (an absent or empty id is falsy
in Python). -/
inductive SubmitResp
  | timeout
  | connError
  | otherExn (msg : String)
  | http (code : Nat) (taskId : Option String)

/-- Environment of one edit_image call: whether tensor_to_pil succeeds,
the base64 string produced by pil_to_base64 (none on failure), the X_KEY
environment variable, the submission response as a function of the
request payload, and the polling and download environments consumed by
wait_for_result. -/
structure EditEnv where
  pilOk : Bool
  b64 : Option String
  xKey : Option String
  submit : List (String × PVal) → SubmitResp
  poll : Nat → PollResponse
  dl : String → DownloadResult

/-- FluxKontextCreator.create_blank_image (flux_kontext_creator.py lines
445-455): a 512 x 512 black RGB image (all samples 0 after the /255
normalization). -/
def create_blank_image : Img :=
  { h := 512, w := 512, c := 3, px := fun _ _ _ => 0 }

/-- The fallback image of every edit_image failure path: the original
input when keep_original_on_fail is set, the blank placeholder otherwise. -/
def fallback (orig : Img) (keep : Bool) : Img :=
  if keep then orig else create_blank_image

/-- Python's "not edit_instruction.strip()" test (edit_image line 143):
true exactly when the instruction consists solely of whitespace. -/
def instructionBlank (s : String) : Bool := s.toList.all Char.isWhitespace

/-- Observable result of one edit_image call: the returned image, the
returned status message, and how many status polls were issued. -/
structure EditOutcome where
  img : Img
  msg : String
  polls : Nat

/-- FluxKontextCreator.edit_image (flux_kontext_creator.py lines 121-297):
validate the instruction, convert and encode the input image, build the
payload, check the API key, submit, and on a 200 response with a task id
poll via wait_for_result; every failure path returns the fallback image
and an error message instead of raising. -/
def edit_image (input_image : Img) (edit_instruction model aspect : String)
    (output_format : String) (safety_tolerance seed : Int)
    (keep_original_on_fail : Bool) (env : EditEnv) : EditOutcome :=
  let fail : String → EditOutcome := fun e =>
    { img := fallback input_image keep_original_on_fail,
      msg := "❌ " ++ e, polls := 0 }
  if instructionBlank edit_instruction then
    fail "Edit instruction cannot be empty"
  else if env.pilOk = false then fail "Failed to convert input image"
  else
    match env.b64 with
    | none => fail "Failed to encode image to base64"
    | some b64img =>
      let payload := build_payload edit_instruction b64img aspect
        safety_tolerance output_format seed
      match env.xKey with
      | none => fail "X_KEY not found. Check your config.ini"
      | some key =>
        if key = "" then fail "X_KEY not found. Check your config.ini"
        else
          match env.submit payload with
          | SubmitResp.timeout => fail "Request timeout - try again"
          | SubmitResp.connError => fail "Connection error - check internet"
          | SubmitResp.otherExn m => fail ("Unexpected error: " ++ m)
          | SubmitResp.http code tid =>
            if code = 200 then
              match tid with
              | none => fail "No task ID received from server"
              | some t =>
                if t = "" then fail "No task ID received from server"
                else
                  let r := wait_for_result env.poll env.dl 20
                  match r.outcome with
                  | WaitOutcome.got img =>
                    { img := img,
                      msg := "✅ " ++ model ++ " edit complete: " ++
                        edit_instruction.take 50 ++ "...",
                      polls := r.polls }
                  | _ =>
                    { img := fallback input_image keep_original_on_fail,
                      msg := "❌ " ++ "Failed to generate edited image",
                      polls := r.polls }
            else if code = 400 then fail "Invalid request parameters"
            else if code = 401 then fail "Invalid API key"
            else if code = 402 then fail "Insufficient credits in BFL account"
            else fail ("Server error: " ++ toString code)

/-- Concrete environment whose submission always answers HTTP 401. -/
def env401 : EditEnv :=
  { pilOk := true, b64 := some "b64data", xKey := some "key",
    submit := fun _ => SubmitResp.http 401 none,
    poll := constPending, dl := dlExn }

/-- C5: flatten composites a 4-channel buffer over opaque white as
rgb * alpha + white * (1 - alpha); flattening a [0,1]-valued 3-channel
buffer extended with a constant alpha of 1 returns exactly that buffer
(with a leading batch dimension), and a buffer without an alpha channel
passes through unchanged apart from gaining the batch dimension. -/
theorem c5_flatten_image (img4 img3 imgN : Img)
    (h4 : img4.c = 4) (h3 : img3.c = 3)
    (hrange : ∀ i j k, 0 ≤ img3.px i j k ∧ img3.px i j k ≤ 1)
    (hN : imgN.c ≠ 4) :
    ((flatten_core img4).c = 3 ∧
      (∀ i j k, (flatten_core img4).px i j k =
        img4.px i j k * img4.px i j 3 + 1 * (1 - img4.px i j 3))) ∧
    (flatten_image (CTensor.t3 (addAlpha img3 1)) =
        CTensor.t4 (flatten_core (addAlpha img3 1)) ∧
      Img.eqv (flatten_core (addAlpha img3 1)) img3) ∧
    (flatten_image (CTensor.t3 imgN) = CTensor.t4 imgN ∧
      flatten_image (CTensor.t4 imgN) = CTensor.t4 imgN) := by
  refine ⟨⟨?_, ?_⟩, ⟨rfl, ?_⟩, ?_, ?_⟩
  · simp [flatten_core, h4]
  · intro i j k; simp [flatten_core, h4]
  · have hc : (addAlpha img3 1).c = 4 := rfl
    refine ⟨?_, ?_, ?_, ?_⟩
    · simp [flatten_core, hc, addAlpha]
    · simp [flatten_core, hc, addAlpha]
    · simp [flatten_core, hc, addAlpha, h3]
    · intro i j k _ _ hk
      have hk3 : k ≠ 3 := by
        have : (flatten_core (addAlpha img3 1)).c = 3 := by simp [flatten_core, hc, addAlpha]
        omega
      simp [flatten_core, hc, addAlpha, hk3]
  · simp [flatten_image, flatten_core, hN]
  · simp [flatten_image, flatten_core, hN]

/-- C5 witness: the theorem applied at concrete buffers. -/
theorem c5_witness :
    imgQuarterA.c = 4 ∧ imgHalf.c = 3 ∧ imgHalf.c ≠ 4 ∧
    Img.eqv (flatten_core (addAlpha imgHalf 1)) imgHalf ∧
    flatten_image (CTensor.t3 imgHalf) = CTensor.t4 imgHalf := by
  have h := c5_flatten_image imgQuarterA imgHalf imgHalf rfl rfl
    (by intro i j k; constructor <;> norm_num [imgHalf]) (by decide)
  exact ⟨rfl, rfl, by decide, h.2.1.2, h.2.2.1⟩

/-- C6: the outbound payload contains the "seed" key with the caller's
value exactly when seed >= 0; a negative seed leaves the key entirely
absent (and no key of the payload is ever null), in both edit_image and
_flux_kontext_process. -/
theorem c6_payload_seed (prompt b64 aspect fmt : String) (st seed : Int) :
    ((build_payload prompt b64 aspect st fmt seed).lookup "seed" =
      if 0 ≤ seed then some (PVal.i seed) else none) ∧
    ("seed" ∈ (build_payload prompt b64 aspect st fmt seed).map Prod.fst ↔ 0 ≤ seed) ∧
    ((build_payload_exp prompt b64 aspect st fmt seed).lookup "seed" =
      if 0 ≤ seed then some (PVal.i seed) else none) ∧
    ("seed" ∈ (build_payload_exp prompt b64 aspect st fmt seed).map Prod.fst ↔ 0 ≤ seed) ∧
    (∀ p ∈ build_payload prompt b64 aspect st fmt seed, p.2 ≠ PVal.nullv) := by
  rcases le_or_lt 0 seed with hs | hs
  · refine ⟨?_, ?_, ?_, ?_, ?_⟩ <;>
      simp [build_payload, build_payload_exp, hs, List.lookup]
  · have hs' : ¬ (0 ≤ seed) := not_le.mpr hs
    refine ⟨?_, ?_, ?_, ?_, ?_⟩ <;>
      simp [build_payload, build_payload_exp, hs', List.lookup]

/-- Every element of a nonempty list is bounded by its running maximum. -/
theorem listMax_ge (l : List Rat) : ∀ v, ∀ x ∈ v :: l, x ≤ listMax v l := by
  induction l with
  | nil => intro v x hx; simp at hx; simp [listMax, hx]
  | cons b t ih =>
    intro v x hx
    have step : listMax v (b :: t) = listMax (max v b) t := rfl
    have base : max v b ≤ listMax (max v b) t :=
      ih (max v b) (max v b) (List.mem_cons_self _ _)
    rw [step]
    rcases List.mem_cons.mp hx with h | h
    · exact le_trans (le_trans h.le (le_max_left v b)) base
    · rcases List.mem_cons.mp h with h2 | h2
      · exact le_trans (le_trans h2.le (le_max_right v b)) base
      · exact ih (max v b) x (List.mem_cons_of_mem _ h2)

/-- C10: tensor_to_pil decides the value range from the data: samples are
multiplied by 255 exactly when the maximum sample is <= 1.0.  Hence a
buffer already holding [0,255]-range integer values whose maximum happens
to be <= 1 is rescaled as if it were in [0,1] (e.g. samples 0,1,1 become
0,255,255), while a buffer containing any sample > 1.0 only gets the
uint8 cast. -/
theorem c10_tensor_to_pil_scale (v : Rat) (rest : List Rat) :
    (listMax v rest ≤ 1 →
      tensor_to_pil_scale (v :: rest) = (v :: rest).map (fun x => np_uint8 (x * 255))) ∧
    (1 < listMax v rest →
      tensor_to_pil_scale (v :: rest) = (v :: rest).map np_uint8) ∧
    (∀ x ∈ v :: rest, 1 < x →
      tensor_to_pil_scale (v :: rest) = (v :: rest).map np_uint8) ∧
    tensor_to_pil_scale [0, 1, 1] = [0, 255, 255] := by
  refine ⟨?_, ?_, ?_, ?_⟩
  · intro h; simp [tensor_to_pil_scale, h]
  · intro h; simp [tensor_to_pil_scale, not_le.mpr h]
  · intro x hx h
    have : 1 < listMax v rest := lt_of_lt_of_le h (listMax_ge rest v x hx)
    simp [tensor_to_pil_scale, not_le.mpr this]
  · have hm : listMax 0 [1, 1] ≤ 1 := by norm_num [listMax]
    simp [tensor_to_pil_scale, hm, np_uint8]

/-- C10 witness: the theorem applied at concrete sample lists. -/
theorem c10_witness :
    listMax (1 / 2) [] ≤ 1 ∧ (1 : Rat) < listMax 2 [] ∧
    tensor_to_pil_scale [1 / 2] = [127] ∧ tensor_to_pil_scale [2] = [2] := by
  have h1 : listMax ((1 : Rat) / 2) [] ≤ 1 := by norm_num [listMax]
  have h2 : (1 : Rat) < listMax 2 [] := by norm_num [listMax]
  have e1 := (c10_tensor_to_pil_scale (1 / 2) []).1 h1
  have e2 := (c10_tensor_to_pil_scale 2 []).2.1 h2
  refine ⟨h1, h2, ?_, ?_⟩
  · rw [e1]; norm_num [np_uint8]; decide
  · rw [e2]; norm_num [np_uint8]; decide

/-- Unfolding of one executed polling attempt. -/
theorem waitFrom_succ (env : Nat → PollResponse) (dl : String → DownloadResult)
    (k fuel : Nat) :
    waitFrom env dl k (fuel + 1) =
      attemptStep (wait_time k)
        { outcome := (waitFrom env dl (k + 1) fuel).outcome,
          polls := (waitFrom env dl (k + 1) fuel).polls + 1,
          slept := (waitFrom env dl (k + 1) fuel).slept + wait_time k }
        dl (env k) := rfl

/-- A Pending response consumes the attempt and continues. -/
theorem waitFrom_pending (env : Nat → PollResponse) (dl : String → DownloadResult)
    (k fuel : Nat) (h : env k = PollResponse.ok "Pending" none) :
    waitFrom env dl k (fuel + 1) =
      { outcome := (waitFrom env dl (k + 1) fuel).outcome,
        polls := (waitFrom env dl (k + 1) fuel).polls + 1,
        slept := (waitFrom env dl (k + 1) fuel).slept + wait_time k } := by
  rw [waitFrom_succ, h]
  rfl

/-- A Ready response whose download succeeds returns the decoded image
after this one poll. -/
theorem waitFrom_ready (env : Nat → PollResponse) (dl : String → DownloadResult)
    (k fuel : Nat) (url : String) (img : Img)
    (h : env k = PollResponse.ok "Ready" (some url))
    (hdl : dl url = DownloadResult.ok img) :
    waitFrom env dl k (fuel + 1) =
      { outcome := WaitOutcome.got img, polls := 1, slept := wait_time k } := by
  rw [waitFrom_succ, h]
  show (match dl url with
    | DownloadResult.ok img =>
      ({ outcome := WaitOutcome.got img, polls := 1, slept := wait_time k } : WaitRun)
    | DownloadResult.httpFail _ =>
      { outcome := WaitOutcome.downloadFailed, polls := 1, slept := wait_time k }
    | DownloadResult.exn =>
      { outcome := (waitFrom env dl (k + 1) fuel).outcome,
        polls := (waitFrom env dl (k + 1) fuel).polls + 1,
        slept := (waitFrom env dl (k + 1) fuel).slept + wait_time k }) = _
  rw [hdl]

/-- A run of m consecutive Pending attempts adds m polls and their sleeps
and then behaves as the remaining loop. -/
theorem waitFrom_pending_run (env : Nat → PollResponse) (dl : String → DownloadResult) :
    ∀ (m k fuel : Nat),
      (∀ j, k ≤ j → j < k + m → env j = PollResponse.ok "Pending" none) →
      waitFrom env dl k (m + fuel) =
        { outcome := (waitFrom env dl (k + m) fuel).outcome,
          polls := (waitFrom env dl (k + m) fuel).polls + m,
          slept := (waitFrom env dl (k + m) fuel).slept + sleepSum k m } := by
  intro m
  induction m with
  | zero => intro k fuel _; simp [sleepSum]
  | succ n ih =>
    intro k fuel h
    have hk : env k = PollResponse.ok "Pending" none := h k le_rfl (by omega)
    have e1 : (n + 1) + fuel = (n + fuel) + 1 := by omega
    rw [e1, waitFrom_pending env dl k (n + fuel) hk,
      ih (k + 1) fuel (fun j h1 h2 => h j (by omega) (by omega))]
    have e2 : k + 1 + n = k + (n + 1) := by omega
    rw [e2]
    simp only [WaitRun.mk.injEq, sleepSum]
    refine ⟨trivial, by omega, by omega⟩

/-- C1: with 19 Pending responses followed by a Ready response whose
download succeeds, wait_for_result with max_attempts = 20 issues exactly
20 status polls and returns the decoded image; with 20 Pending responses
it returns the timed-out outcome (no image) after exactly 20 polls,
without issuing a 21st. -/
theorem c1_wait_for_result (env1 env2 : Nat → PollResponse)
    (dl : String → DownloadResult) (url : String) (img : Img)
    (h1 : ∀ j, 1 ≤ j → j ≤ 19 → env1 j = PollResponse.ok "Pending" none)
    (h2 : env1 20 = PollResponse.ok "Ready" (some url))
    (h3 : dl url = DownloadResult.ok img)
    (h4 : ∀ j, 1 ≤ j → j ≤ 20 → env2 j = PollResponse.ok "Pending" none) :
    ((wait_for_result env1 dl 20).outcome = WaitOutcome.got img ∧
      (wait_for_result env1 dl 20).polls = 20) ∧
    ((wait_for_result env2 dl 20).outcome = WaitOutcome.timedOut ∧
      (wait_for_result env2 dl 20).polls = 20) := by
  constructor
  · have run1 := waitFrom_pending_run env1 dl 19 1 1
      (fun j hj1 hj2 => h1 j hj1 (by omega))
    have ready : waitFrom env1 dl (1 + 19) 1 =
        { outcome := WaitOutcome.got img, polls := 1, slept := wait_time 20 } :=
      waitFrom_ready env1 dl 20 0 url img h2 h3
    have e : wait_for_result env1 dl 20 = waitFrom env1 dl 1 (19 + 1) := rfl
    rw [e, run1, ready]
    exact ⟨rfl, rfl⟩
  · have run2 := waitFrom_pending_run env2 dl 20 1 0
      (fun j hj1 hj2 => h4 j hj1 (by omega))
    have e : wait_for_result env2 dl 20 = waitFrom env2 dl 1 (20 + 0) := rfl
    rw [e, run2]
    exact ⟨rfl, rfl⟩

/-- C1 witness: the theorem applied at concrete environments. -/
theorem c1_witness :
    pendingThenReady 20 = PollResponse.ok "Ready" (some "https://example/sample.png") ∧
    dlAlwaysHalf "https://example/sample.png" = DownloadResult.ok imgHalf ∧
    (wait_for_result pendingThenReady dlAlwaysHalf 20).outcome = WaitOutcome.got imgHalf ∧
    (wait_for_result pendingThenReady dlAlwaysHalf 20).polls = 20 ∧
    (wait_for_result constPending dlExn 20).outcome = WaitOutcome.timedOut ∧
    (wait_for_result constPending dlExn 20).polls = 20 := by
  have h := c1_wait_for_result pendingThenReady constPending dlAlwaysHalf
    "https://example/sample.png" imgHalf
    (fun j hj1 hj2 => by simp [pendingThenReady, hj2])
    (by simp [pendingThenReady])
    rfl
    (fun j hj1 hj2 => rfl)
  have hdl : (wait_for_result constPending dlAlwaysHalf 20) =
      (wait_for_result constPending dlExn 20) := by
    have run1 := waitFrom_pending_run constPending dlAlwaysHalf 20 1 0 (fun j h1 h2 => rfl)
    have run2 := waitFrom_pending_run constPending dlExn 20 1 0 (fun j h1 h2 => rfl)
    have e1 : wait_for_result constPending dlAlwaysHalf 20 =
        waitFrom constPending dlAlwaysHalf 1 (20 + 0) := rfl
    have e2 : wait_for_result constPending dlExn 20 =
        waitFrom constPending dlExn 1 (20 + 0) := rfl
    rw [e1, e2, run1, run2]
    rfl
  refine ⟨by simp [pendingThenReady], rfl, h.1.1, h.1.2, ?_, ?_⟩
  · rw [← hdl]; exact h.2.1
  · rw [← hdl]; exact h.2.2

/-- C2 counterexample: the sum of min(2+k, 15) over k = 1..20 is 222, not
approximately 280 as the claim asserts (the absolute error is 58, more
than 20 percent of 280). -/
theorem c2_counterexample :
    totalWorstCaseSleep = 222 ∧ totalWorstCaseSleep ≠ 280 ∧
    280 - totalWorstCaseSleep = 58 ∧ 5 * 58 > 280 := by decide

/-- C2 (amended): attempt k of the polling loop sleeps exactly
min(2 + k, 15) time units before issuing its poll, and the total
worst-case sleep over a full 20-attempt run is the sum of min(2+k, 15)
for k = 1..20, which equals 222 time units (not approximately 280). -/
theorem c2_sleep_schedule (env : Nat → PollResponse) (dl : String → DownloadResult)
    (h : ∀ j, 1 ≤ j → j ≤ 20 → env j = PollResponse.ok "Pending" none) :
    (∀ k, wait_time k = min (2 + k) 15) ∧
    (wait_for_result env dl 20).slept = sleepSum 1 20 ∧
    sleepSum 1 20 = 222 := by
  refine ⟨fun k => rfl, ?_, by decide⟩
  have run := waitFrom_pending_run env dl 20 1 0
    (fun j hj1 hj2 => h j hj1 (by omega))
  have e : wait_for_result env dl 20 = waitFrom env dl 1 (20 + 0) := rfl
  rw [e, run]
  rfl

/-- C2 witness: the amended theorem applied at a concrete environment. -/
theorem c2_witness :
    (∀ j, 1 ≤ j → j ≤ 20 → constPending j = PollResponse.ok "Pending" none) ∧
    wait_time 5 = min 7 15 ∧
    (wait_for_result constPending dlExn 20).slept = 222 := by
  have hp : ∀ j, 1 ≤ j → j ≤ 20 → constPending j = PollResponse.ok "Pending" none :=
    fun j _ _ => rfl
  have h := c2_sleep_schedule constPending dlExn hp
  exact ⟨hp, h.1 5, by rw [h.2.1, h.2.2]⟩

/-- C3: for every N between 1 and 5, build_workflow(N) contains exactly N
LoadImage nodes, exactly max(0, N-1) ImageStitch nodes, exactly one
FluxKontextProImageNode and exactly one SaveImage node, and every
two-element input reference names an existing node id. -/
theorem c3_build_workflow (n : Nat) (h1 : 1 ≤ n) (h2 : n ≤ 5) :
    countClass (build_workflow n) "LoadImage" = n ∧
    countClass (build_workflow n) "ImageStitch" = n - 1 ∧
    countClass (build_workflow n) "FluxKontextProImageNode" = 1 ∧
    countClass (build_workflow n) "SaveImage" = 1 ∧
    refOk (build_workflow n) = true := by
  interval_cases n <;> decide

/-- C3 witness: the theorem applied at N = 3. -/
theorem c3_witness :
    1 ≤ 3 ∧ 3 ≤ 5 ∧
    countClass (build_workflow 3) "LoadImage" = 3 ∧
    countClass (build_workflow 3) "ImageStitch" = 2 ∧
    refOk (build_workflow 3) = true := by
  have h := c3_build_workflow 3 (by decide) (by decide)
  exact ⟨by decide, by decide, h.1, h.2.1, h.2.2.2.2⟩

/-- Pixel characterization of a single paste. -/
theorem paste_px (c i : PImg) (ox oy x y : Nat) :
    (paste c i ox oy).px x y =
      if ox ≤ x ∧ x < ox + i.width ∧ oy ≤ y ∧ y < oy + i.height then
        i.px (x - ox) (y - oy)
      else c.px x y := rfl

/-- Unfolding of the side-by-side combination of two images. -/
theorem side_by_side_two (A B : PImg) (g : Nat) :
    side_by_side_combine [A, B] g =
      paste (paste (whiteImg (A.width + B.width + g) (max A.height B.height))
          A 0 ((max A.height B.height - A.height) / 2))
        B (A.width + g) ((max A.height B.height - B.height) / 2) := by
  have h1 : A.width + (B.width + 0) + g * (2 - 1) = A.width + B.width + g := by omega
  have h2 : max A.height (max B.height 0) = max A.height B.height := by omega
  have h3 : 0 + A.width + g = A.width + g := by omega
  show paste (paste (whiteImg (A.width + (B.width + 0) + g * (2 - 1))
      (max A.height (max B.height 0)))
      A 0 ((max A.height (max B.height 0) - A.height) / 2))
      B (0 + A.width + g) ((max A.height (max B.height 0) - B.height) / 2) = _
  rw [h1, h2, h3]

/-- C7: side-by-side combination of two images with gap 10 yields width
A.width + B.width + 10 and height max(A.height, B.height); the 10 columns
between the images are white, and each input appears vertically centered
(white above and below its band). -/
theorem c7_side_by_side (A B : PImg) :
    (side_by_side_combine [A, B] 10).width = A.width + B.width + 10 ∧
    (side_by_side_combine [A, B] 10).height = max A.height B.height ∧
    (∀ x y, A.width ≤ x → x < A.width + 10 →
      (side_by_side_combine [A, B] 10).px x y = whitePix) ∧
    (∀ x y, x < A.width →
      (side_by_side_combine [A, B] 10).px x y =
        if (max A.height B.height - A.height) / 2 ≤ y ∧
            y < (max A.height B.height - A.height) / 2 + A.height then
          A.px x (y - (max A.height B.height - A.height) / 2)
        else whitePix) ∧
    (∀ x y, A.width + 10 ≤ x →
      (side_by_side_combine [A, B] 10).px x y =
        if x < A.width + 10 + B.width ∧
            (max A.height B.height - B.height) / 2 ≤ y ∧
            y < (max A.height B.height - B.height) / 2 + B.height then
          B.px (x - (A.width + 10)) (y - (max A.height B.height - B.height) / 2)
        else whitePix) := by
  have e := side_by_side_two A B 10
  refine ⟨?_, ?_, ?_, ?_, ?_⟩
  · rw [e]; rfl
  · rw [e]; rfl
  · intro x y hx1 hx2
    rw [e, paste_px, paste_px]
    rw [if_neg (fun hc => absurd hc.1 (by omega)),
      if_neg (fun hc => absurd hc.2.1 (by omega))]
    rfl
  · intro x y hx
    rw [e, paste_px, paste_px]
    rw [if_neg (fun hc => absurd hc.1 (by omega))]
    by_cases hy1 : (max A.height B.height - A.height) / 2 ≤ y
    · by_cases hy2 : y < (max A.height B.height - A.height) / 2 + A.height
      · rw [if_pos ⟨Nat.zero_le x, by omega, hy1, hy2⟩, if_pos ⟨hy1, hy2⟩,
          Nat.sub_zero]
      · rw [if_neg (fun hc => hy2 hc.2.2.2), if_neg (fun hc => hy2 hc.2)]
        rfl
    · rw [if_neg (fun hc => hy1 hc.2.2.1), if_neg (fun hc => hy1 hc.1)]
      rfl
  · intro x y hx
    rw [e, paste_px, paste_px]
    by_cases hc : x < A.width + 10 + B.width ∧
        (max A.height B.height - B.height) / 2 ≤ y ∧
        y < (max A.height B.height - B.height) / 2 + B.height
    · rw [if_pos ⟨hx, hc.1, hc.2.1, hc.2.2⟩, if_pos hc]
    · rw [if_neg (fun hq => hc ⟨hq.2.1, hq.2.2.1, hq.2.2.2⟩),
        if_neg (fun hq => absurd hq.2.1 (by omega)), if_neg hc]
      rfl

/-- C7 witness: the theorem applied at concrete images. -/
theorem c7_witness :
    (side_by_side_combine [pimgA, pimgB] 10).width = 15 ∧
    (side_by_side_combine [pimgA, pimgB] 10).height = 2 ∧
    (side_by_side_combine [pimgA, pimgB] 10).px 3 0 = whitePix := by
  have h := c7_side_by_side pimgA pimgB
  refine ⟨?_, ?_, h.2.2.1 3 0 (by decide) (by decide)⟩
  · rw [h.1]; decide
  · rw [h.2.1]; decide

/-- Unfolding of the 2x2 grid combination of a single image: the image at
the top-left position and three white fillers of its size at the other
three positions. -/
theorem grid_combine_single (A : PImg) (g : Nat) :
    grid_combine A [] g =
      paste (paste (paste (paste
          (whiteImg (A.width * 2 + g) (A.height * 2 + g)) A 0 0)
          (whiteImg A.width A.height) (A.width + g) 0)
          (whiteImg A.width A.height) 0 (A.height + g))
        (whiteImg A.width A.height) (A.width + g) (A.height + g) := rfl

/-- C8: the 2x2 grid combination of a single image A pads the list with 3
all-white fillers of A's size, produces a canvas of width 2*A.width + g
and height 2*A.height + g carrying A in the top-left quadrant and white
everywhere else, and a list longer than 4 images is truncated to its
first 4. -/
theorem c8_grid_combine (A : PImg) (g : Nat) (rest : List PImg)
    (hlen : 3 ≤ rest.length) :
    grid_pad A [] = [A, whiteImg A.width A.height, whiteImg A.width A.height,
      whiteImg A.width A.height] ∧
    (grid_combine A [] g).width = A.width * 2 + g ∧
    (grid_combine A [] g).height = A.height * 2 + g ∧
    (∀ x y, (grid_combine A [] g).px x y =
      if x < A.width ∧ y < A.height then A.px x y else whitePix) ∧
    grid_combine A rest g = grid_combine A (rest.take 3) g := by
  refine ⟨rfl, ?_, ?_, ?_, ?_⟩
  · rw [grid_combine_single]; rfl
  · rw [grid_combine_single]; rfl
  · intro x y
    rw [grid_combine_single]
    simp only [paste_px, whiteImg]
    by_cases hA : x < A.width ∧ y < A.height
    · rw [if_neg (fun hc => absurd hc.1 (by omega)),
        if_neg (fun hc => absurd hc.2.2.1 (by omega)),
        if_neg (fun hc => absurd hc.1 (by omega)),
        if_pos ⟨Nat.zero_le x, by omega, Nat.zero_le y, by omega⟩,
        if_pos hA, Nat.sub_zero, Nat.sub_zero]
    · rw [if_neg hA]
      split_ifs with h1 h2 h3 h4 <;>
        first
          | rfl
          | exact absurd ⟨by omega, by omega⟩ hA
  · have h4 : (grid_pad A rest).take 4 = A :: rest.take 3 := by
      have hz : 4 - (rest.length + 1) = 0 := by omega
      simp [grid_pad, hz, List.take_succ_cons]
    have h5 : (grid_pad A (rest.take 3)).take 4 = A :: rest.take 3 := by
      have hl : (rest.take 3).length = 3 := by
        rw [List.length_take]
        exact min_eq_left hlen
      simp [grid_pad, hl, List.take_succ_cons, List.take_take]
    simp only [grid_combine]
    rw [h4, h5]

/-- C8 witness: the theorem applied at a concrete image and gap. -/
theorem c8_witness :
    grid_pad pimgA [] = [pimgA, whiteImg 2 1, whiteImg 2 1, whiteImg 2 1] ∧
    (grid_combine pimgA [] 4).width = 8 ∧
    (grid_combine pimgA [] 4).height = 6 ∧
    (grid_combine pimgA [] 4).px 0 0 = pimgA.px 0 0 ∧
    (grid_combine pimgA [] 4).px 5 0 = whitePix ∧
    3 ≤ [pimgB, pimgB, pimgB].length := by
  have h := c8_grid_combine pimgA 4 [pimgB, pimgB, pimgB] (by decide)
  refine ⟨?_, ?_, ?_, ?_, ?_, by decide⟩
  · rw [h.1]; rfl
  · rw [h.2.1]; decide
  · rw [h.2.2.1]; decide
  · rw [h.2.2.2.1 0 0, if_pos (by decide)]
  · rw [h.2.2.2.1 5 0, if_neg (by decide)]

/-- C4: when the submission POST returns HTTP 401, edit_image returns the
fallback image paired with the "Invalid API key" error message and issues
no status poll at all. -/
theorem c4_auth_error_no_poll (orig : Img) (ins model aspect fmt : String)
    (st sd : Int) (keep : Bool) (env : EditEnv) (s key : String)
    (tid : Option String)
    (hi : instructionBlank ins = false)
    (hp : env.pilOk = true) (hb : env.b64 = some s)
    (hk : env.xKey = some key) (hkne : key ≠ "")
    (hs : env.submit (build_payload ins s aspect st fmt sd) =
      SubmitResp.http 401 tid) :
    edit_image orig ins model aspect fmt st sd keep env =
      { img := fallback orig keep, msg := "❌ " ++ "Invalid API key",
        polls := 0 } := by
  simp [edit_image, hi, hp, hb, hk, hkne, hs]

/-- C4 witness: the theorem applied at a concrete environment. -/
theorem c4_witness :
    instructionBlank "recolor" = false ∧
    env401.pilOk = true ∧ env401.b64 = some "b64data" ∧
    env401.xKey = some "key" ∧ ("key" : String) ≠ "" ∧
    edit_image imgHalf "recolor" "flux-kontext-pro" "1:1" "png" 4 (-1) true env401 =
      { img := fallback imgHalf true, msg := "❌ " ++ "Invalid API key",
        polls := 0 } := by
  refine ⟨by decide, rfl, rfl, rfl, by decide, ?_⟩
  exact c4_auth_error_no_poll imgHalf "recolor" "flux-kontext-pro" "1:1" "png"
    4 (-1) true env401 "b64data" "key" none (by decide) rfl rfl rfl (by decide) rfl

/-- C9: edit_image is a total function into image-message pairs: for every
input and environment it either succeeds with the completion message or
returns the fallback image (the original input when keep_original_on_fail
is set, the blank placeholder otherwise) paired with an error message;
no failure kind escapes as an exception. -/
theorem c9_edit_image_boundary (orig : Img) (ins model aspect fmt : String)
    (st sd : Int) (keep : Bool) (env : EditEnv) :
    (edit_image orig ins model aspect fmt st sd keep env).msg =
        "✅ " ++ model ++ " edit complete: " ++ ins.take 50 ++ "..." ∨
    ((edit_image orig ins model aspect fmt st sd keep env).img =
        fallback orig keep ∧
      ∃ e, (edit_image orig ins model aspect fmt st sd keep env).msg =
        "❌ " ++ e) := by
  obtain ⟨pil, b64, key, sub, poll, dl⟩ := env
  by_cases hi : instructionBlank ins = true
  · exact Or.inr ⟨by simp [edit_image, hi], "Edit instruction cannot be empty",
      by simp [edit_image, hi]⟩
  · cases pil with
    | false =>
      exact Or.inr ⟨by simp [edit_image, hi], "Failed to convert input image",
        by simp [edit_image, hi]⟩
    | true =>
      cases b64 with
      | none =>
        exact Or.inr ⟨by simp [edit_image, hi], "Failed to encode image to base64",
          by simp [edit_image, hi]⟩
      | some s =>
        cases key with
        | none =>
          exact Or.inr ⟨by simp [edit_image, hi],
            "X_KEY not found. Check your config.ini", by simp [edit_image, hi]⟩
        | some k =>
          by_cases hk : k = ""
          · exact Or.inr ⟨by simp [edit_image, hi, hk],
              "X_KEY not found. Check your config.ini",
              by simp [edit_image, hi, hk]⟩
          · cases hsub : sub (build_payload ins s aspect st fmt sd) with
            | timeout =>
              exact Or.inr ⟨by simp [edit_image, hi, hk, hsub],
                "Request timeout - try again", by simp [edit_image, hi, hk, hsub]⟩
            | connError =>
              exact Or.inr ⟨by simp [edit_image, hi, hk, hsub],
                "Connection error - check internet",
                by simp [edit_image, hi, hk, hsub]⟩
            | otherExn m =>
              exact Or.inr ⟨by simp [edit_image, hi, hk, hsub],
                "Unexpected error: " ++ m, by simp [edit_image, hi, hk, hsub]⟩
            | http code tid =>
              by_cases hc : code = 200
              · subst hc
                cases tid with
                | none =>
                  exact Or.inr ⟨by simp [edit_image, hi, hk, hsub],
                    "No task ID received from server",
                    by simp [edit_image, hi, hk, hsub]⟩
                | some t =>
                  by_cases ht : t = ""
                  · exact Or.inr ⟨by simp [edit_image, hi, hk, hsub, ht],
                      "No task ID received from server",
                      by simp [edit_image, hi, hk, hsub, ht]⟩
                  · cases hw : (wait_for_result poll dl 20).outcome with
                    | got img =>
                      exact Or.inl (by simp [edit_image, hi, hk, hsub, ht, hw])
                    | noSample =>
                      exact Or.inr ⟨by simp [edit_image, hi, hk, hsub, ht, hw],
                        "Failed to generate edited image",
                        by simp [edit_image, hi, hk, hsub, ht, hw]⟩
                    | downloadFailed =>
                      exact Or.inr ⟨by simp [edit_image, hi, hk, hsub, ht, hw],
                        "Failed to generate edited image",
                        by simp [edit_image, hi, hk, hsub, ht, hw]⟩
                    | taskError =>
                      exact Or.inr ⟨by simp [edit_image, hi, hk, hsub, ht, hw],
                        "Failed to generate edited image",
                        by simp [edit_image, hi, hk, hsub, ht, hw]⟩
                    | timedOut =>
                      exact Or.inr ⟨by simp [edit_image, hi, hk, hsub, ht, hw],
                        "Failed to generate edited image",
                        by simp [edit_image, hi, hk, hsub, ht, hw]⟩
              · by_cases h4 : code = 400
                · exact Or.inr ⟨by simp [edit_image, hi, hk, hsub, hc, h4],
                    "Invalid request parameters",
                    by simp [edit_image, hi, hk, hsub, hc, h4]⟩
                · by_cases h1 : code = 401
                  · exact Or.inr ⟨by simp [edit_image, hi, hk, hsub, hc, h4, h1],
                      "Invalid API key",
                      by simp [edit_image, hi, hk, hsub, hc, h4, h1]⟩
                  · by_cases h2 : code = 402
                    · exact Or.inr ⟨by simp [edit_image, hi, hk, hsub, hc, h4, h1, h2],
                        "Insufficient credits in BFL account",
                        by simp [edit_image, hi, hk, hsub, hc, h4, h1, h2]⟩
                    · exact Or.inr ⟨by simp [edit_image, hi, hk, hsub, hc, h4, h1, h2],
                        "Server error: " ++ toString code,
                        by simp [edit_image, hi, hk, hsub, hc, h4, h1, h2]⟩

/-- C6 witness: the theorem applied at concrete payloads. -/
theorem c6_witness :
    (build_payload "p" "img64" "1:1" 4 "png" 7).lookup "seed" = some (PVal.i 7) ∧
    (build_payload "p" "img64" "1:1" 4 "png" (-1)).lookup "seed" = none := by
  have h1 := (c6_payload_seed "p" "img64" "1:1" "png" 4 7).1
  have h2 := (c6_payload_seed "p" "img64" "1:1" "png" 4 (-1)).1
  constructor
  · rw [h1, if_pos (by decide)]
  · rw [h2, if_neg (by decide)]
